import Mathlib

/-!
Verification of the astria documentation-site repository's specification.

The repository holds two declarative inputs: the site configuration
(src/docs/.vitepress/config.mts) and the home page's front-matter block
(src/unnamed/part_000).  The spec describes the contract of two resolvers
(a Site Descriptor Resolver and a Page Descriptor Resolver) whose code is
not part of the repository; those resolvers are modelled here from the
spec's words, while the two concrete inputs are embedded from the source
files verbatim.
-/

namespace Astria

/-! ### Data model (spec section 3) -/

/-- NavItem from the spec's data model: a text label and a link target. -/
structure NavItem where
  text : String
  link : String
deriving Repr, DecidableEq

/-- SidebarGroup from the spec's data model: a heading and an ordered
sequence of NavItem. -/
structure SidebarGroup where
  text : String
  items : List NavItem
deriving Repr, DecidableEq

/-- SocialLink from the spec's data model: an icon identifier and a URL. -/
structure SocialLink where
  icon : String
  link : String
deriving Repr, DecidableEq

/-- Logo descriptor, embedded from themeConfig.logo in config.mts. -/
structure Logo where
  src : String
  width : Nat
  height : Nat
deriving Repr, DecidableEq

/-- Raw site configuration object, the input of the Site Descriptor
Resolver.  Fields that the author may omit are Options; the shape follows
config.mts (title, description, themeConfig.logo, nav, sidebar,
socialLinks). -/
structure RawSiteConfig where
  title : Option String
  description : Option String
  logo : Option Logo
  nav : List NavItem
  sidebar : List SidebarGroup
  socialLinks : List SocialLink
deriving Repr, DecidableEq

/-- Resolved site descriptor, the output shape given in spec section 4.2:
title, description, nav, sidebar, socialLinks. -/
structure SiteDescriptor where
  title : String
  description : String
  nav : List NavItem
  sidebar : List SidebarGroup
  socialLinks : List SocialLink
deriving Repr, DecidableEq

/-- ConfigError from spec section 7: raised when a required field (title)
is absent or a link target is not syntactically valid. -/
inductive ConfigError where
  | missingTitle
  | invalidLink (target : String)
deriving Repr, DecidableEq

/-- Boolean test that one string is a leading segment of another,
computed on the underlying character lists. -/
def strHasLead (s p : String) : Bool :=
  p.data.isPrefixOf s.data

/-- Modelled from the spec: a link target is syntactically valid when it
is a site-root-relative path (starts with a slash) or an absolute URL
(http or https scheme).  The repository contains no validator code; this
follows section 4.2's phrase "a link target is not a syntactically valid
path/URL". -/
def validLink (s : String) : Bool :=
  strHasLead s "/" || strHasLead s "https://" || strHasLead s "http://"

/-- All link targets appearing in a raw site configuration: nav links,
sidebar item links, and social links, in document order. -/
def configLinks (c : RawSiteConfig) : List String :=
  c.nav.map (fun n => n.link)
    ++ (c.sidebar.map (fun g => g.items.map (fun n => n.link))).flatten
    ++ c.socialLinks.map (fun s => s.link)

/-- First syntactically invalid link target of a configuration, if any. -/
def firstInvalidLink (c : RawSiteConfig) : Option String :=
  (configLinks c).find? (fun l => !validLink l)

/-- Modelled from the spec: the Site Descriptor Resolver (section 4.2).
The repository contains only the configuration data, not the resolver;
this follows the contract "given a raw configuration object, validate and
return {title, description, nav, sidebar, socialLinks}; fails with
ConfigError when a required field (title) is absent or a link target is
not a syntactically valid path/URL". -/
def resolveSite (c : RawSiteConfig) : Except ConfigError SiteDescriptor :=
  match c.title with
  | none => .error .missingTitle
  | some t =>
    match firstInvalidLink c with
    | some l => .error (.invalidLink l)
    | none =>
      .ok { title := t
            description := c.description.getD ""
            nav := c.nav
            sidebar := c.sidebar
            socialLinks := c.socialLinks }

/-- The repository's site configuration, embedded from
src/docs/.vitepress/config.mts. -/
def astriaSiteConfig : RawSiteConfig :=
  { title := some "Astria"
    description := some "The Shared Sequencer Network"
    logo := some { src := "/astria-logo-mini.svg", width := 24, height := 24 }
    nav := [ { text := "Home", link := "/" },
             { text := "Just Rollup", link := "/Introduction" } ]
    sidebar := [ { text := "Info"
                   items := [ { text := "Introduction", link := "/overview/introduction" },
                              { text := "Runtime API Examples", link := "/api-examples" } ] } ]
    socialLinks := [ { icon := "github", link := "https://github.com/vuejs/vitepress" } ] }

/-- The descriptor the resolver produces for the repository's site
configuration. -/
def astriaDescriptor : SiteDescriptor :=
  { title := "Astria"
    description := "The Shared Sequencer Network"
    nav := [ { text := "Home", link := "/" },
             { text := "Just Rollup", link := "/Introduction" } ]
    sidebar := [ { text := "Info"
                   items := [ { text := "Introduction", link := "/overview/introduction" },
                              { text := "Runtime API Examples", link := "/api-examples" } ] } ]
    socialLinks := [ { icon := "github", link := "https://github.com/vuejs/vitepress" } ] }

/-! ### Page Descriptor Resolver (spec section 4.1) -/

/-- Theme enumeration of a hero action, spec section 3: enum(brand|alt). -/
inductive Theme where
  | brand
  | alt
deriving Repr, DecidableEq

/-- Hero image from the spec's data model: a source path and alt text. -/
structure HeroImage where
  src : String
  alt : String
deriving Repr, DecidableEq

/-- Resolved hero action: theme drawn from the enumeration, text, link. -/
structure HeroAction where
  theme : Theme
  text : String
  link : String
deriving Repr, DecidableEq

/-- HeroConfig from the spec's data model (section 3). -/
structure HeroConfig where
  name : String
  text : String
  tagline : String
  image : Option HeroImage
  actions : List HeroAction
deriving Repr, DecidableEq

/-- FeatureItem from the spec's data model (section 3). -/
structure FeatureItem where
  title : String
  details : String
deriving Repr, DecidableEq

/-- ParseError from spec section 7: identifies the malformed field of the
front matter. -/
inductive ParseError where
  | missingField (field : String)
  | invalidTheme (value : String)
deriving Repr, DecidableEq

/-- Raw hero action as written in the front matter: the theme is still an
arbitrary string. -/
structure RawAction where
  theme : String
  text : String
  link : String
deriving Repr, DecidableEq

/-- Raw hero block as written in the front matter; author-omittable
fields are Options. -/
structure RawHero where
  name : Option String
  text : Option String
  tagline : Option String
  image : Option HeroImage
  actions : List RawAction
deriving Repr, DecidableEq

/-- Raw feature entry as written in the front matter. -/
structure RawFeature where
  title : Option String
  details : Option String
deriving Repr, DecidableEq

/-- Raw front-matter block, the input of the Page Descriptor Resolver,
shaped as in src/unnamed/part_000: layout, hero, features. -/
structure RawFrontMatter where
  layout : Option String
  hero : Option RawHero
  features : List RawFeature
deriving Repr, DecidableEq

/-- Resolved page descriptor: a HeroConfig plus an ordered sequence of
FeatureItem (spec section 4.1). -/
structure PageDescriptor where
  hero : HeroConfig
  features : List FeatureItem
deriving Repr, DecidableEq

/-- Requires an author-supplied field to be present, failing with a
ParseError naming the field otherwise. -/
def require (field : String) : Option String → Except ParseError String
  | some s => .ok s
  | none => .error (.missingField field)

/-- Modelled from the spec: resolution of an action's theme into the
enumeration enum(brand|alt); any other value is a malformed field. -/
def resolveTheme (s : String) : Except ParseError Theme :=
  if s = "brand" then .ok .brand
  else if s = "alt" then .ok .alt
  else .error (.invalidTheme s)

/-- Resolves one raw hero action. -/
def resolveAction (a : RawAction) : Except ParseError HeroAction := do
  let t ← resolveTheme a.theme
  .ok { theme := t, text := a.text, link := a.link }

/-- Resolves a sequence of raw hero actions, preserving order. -/
def resolveActions : List RawAction → Except ParseError (List HeroAction)
  | [] => .ok []
  | a :: rest => do
    let h ← resolveAction a
    let hs ← resolveActions rest
    .ok (h :: hs)

/-- Modelled from the spec: hero resolution.  Missing optional fields are
tolerated by substituting the defined defaults, the empty string for
tagline and no image for image (spec section 4.1). -/
def resolveHero (h : RawHero) : Except ParseError HeroConfig := do
  let n ← require "hero.name" h.name
  let tx ← require "hero.text" h.text
  let acts ← resolveActions h.actions
  .ok { name := n
        text := tx
        tagline := h.tagline.getD ""
        image := h.image
        actions := acts }

/-- Resolves one raw feature entry. -/
def resolveFeature (f : RawFeature) : Except ParseError FeatureItem := do
  let t ← require "feature.title" f.title
  let d ← require "feature.details" f.details
  .ok { title := t, details := d }

/-- Resolves a sequence of raw feature entries, preserving order. -/
def resolveFeatures : List RawFeature → Except ParseError (List FeatureItem)
  | [] => .ok []
  | f :: rest => do
    let x ← resolveFeature f
    let xs ← resolveFeatures rest
    .ok (x :: xs)

/-- Modelled from the spec: the Page Descriptor Resolver (section 4.1).
The repository contains only the front-matter data, not the resolver;
this follows the contract "given raw front-matter text, produce a
HeroConfig plus an ordered sequence of FeatureItem, or fail with a
ParseError identifying the malformed field".  It is a pure function. -/
def resolvePage (fm : RawFrontMatter) : Except ParseError PageDescriptor :=
  match fm.hero with
  | none => .error (.missingField "hero")
  | some h => do
    let hc ← resolveHero h
    let fs ← resolveFeatures fm.features
    .ok { hero := hc, features := fs }

/-- The repository's home-page front matter, embedded from
src/unnamed/part_000. -/
def astriaFrontMatter : RawFrontMatter :=
  { layout := some "home"
    hero := some
      { name := some "Astria"
        text := some "The Shared Sequencer Network"
        tagline := some "The easiest way to deploy decentralized rollups."
        image := some { src := "/astria-logo-inverted.svg", alt := "Astria" }
        actions := [ { theme := "brand", text := "Just Deploy", link := "/Introduction" },
                     { theme := "alt", text := "Introduction", link := "/Introduction" } ] }
    features :=
      [ { title := some "Learn"
          details := some "Astria is a shared sequencing network that allows many rollups to share a single decentralized network of sequencers." },
        { title := some "Feature B"
          details := some "Lorem ipsum dolor sit amet, consectetur adipiscing elit" },
        { title := some "Feature C"
          details := some "Lorem ipsum dolor sit amet, consectetur adipiscing elit" } ] }

/-- The page descriptor the resolver produces for the repository's front
matter. -/
def astriaPage : PageDescriptor :=
  { hero :=
      { name := "Astria"
        text := "The Shared Sequencer Network"
        tagline := "The easiest way to deploy decentralized rollups."
        image := some { src := "/astria-logo-inverted.svg", alt := "Astria" }
        actions := [ { theme := .brand, text := "Just Deploy", link := "/Introduction" },
                     { theme := .alt, text := "Introduction", link := "/Introduction" } ] }
    features :=
      [ { title := "Learn"
          details := "Astria is a shared sequencing network that allows many rollups to share a single decentralized network of sequencers." },
        { title := "Feature B"
          details := "Lorem ipsum dolor sit amet, consectetur adipiscing elit" },
        { title := "Feature C"
          details := "Lorem ipsum dolor sit amet, consectetur adipiscing elit" } ] }

/-! ### Helper lemmas -/

/-- A successful site resolution copies nav, sidebar and socialLinks from
the raw configuration unchanged. -/
theorem resolveSite_ok_shape (c : RawSiteConfig) (d : SiteDescriptor)
    (hok : resolveSite c = Except.ok d) :
    d.nav = c.nav ∧ d.sidebar = c.sidebar ∧ d.socialLinks = c.socialLinks := by
  cases ht : c.title with
  | none => simp [resolveSite, ht] at hok
  | some t =>
    cases hv : firstInvalidLink c with
    | some l => simp [resolveSite, ht, hv] at hok
    | none =>
      simp [resolveSite, ht, hv] at hok
      subst hok
      exact ⟨rfl, rfl, rfl⟩

/-- A successful hero resolution takes its tagline from the raw tagline
with the empty string as default, and its image from the raw image. -/
theorem resolveHero_ok_fields (h : RawHero) (hc : HeroConfig)
    (hok : resolveHero h = Except.ok hc) :
    hc.tagline = h.tagline.getD "" ∧ hc.image = h.image := by
  cases hn : h.name with
  | none => simp [resolveHero, require, bind, Except.bind, hn] at hok
  | some n =>
    cases htx : h.text with
    | none => simp [resolveHero, require, bind, Except.bind, hn, htx] at hok
    | some tx =>
      cases ha : resolveActions h.actions with
      | error e => simp [resolveHero, require, bind, Except.bind, hn, htx, ha] at hok
      | ok acts =>
        simp [resolveHero, require, bind, Except.bind, hn, htx, ha] at hok
        subst hok
        exact ⟨rfl, rfl⟩

/-- A successful page resolution resolves its hero from the raw hero
block. -/
theorem resolvePage_ok_hero (fm : RawFrontMatter) (h : RawHero) (d : PageDescriptor)
    (hh : fm.hero = some h) (hok : resolvePage fm = Except.ok d) :
    resolveHero h = Except.ok d.hero := by
  cases e1 : resolveHero h with
  | error e => simp [resolvePage, bind, Except.bind, hh, e1] at hok
  | ok hc =>
    cases e2 : resolveFeatures fm.features with
    | error e => simp [resolvePage, bind, Except.bind, hh, e1, e2] at hok
    | ok fs =>
      simp [resolvePage, bind, Except.bind, hh, e1, e2] at hok
      subst hok
      rfl

/-! ### Supporting definitions for the claims -/

/-- Modelled from the spec: the known icon identifiers of SocialLink
(spec section 3, enum(known-icon-identifiers)); the repository uses
github and the spec does not list further members, so the common icon
identifiers of documentation-site themes are included. -/
def knownIcon (i : String) : Bool :=
  ["discord", "facebook", "github", "instagram", "linkedin",
   "mastodon", "slack", "twitter", "x", "youtube"].contains i

/-- Every nav and sidebar link of a resolved site descriptor is
site-root-relative and every social link is an absolute https URL with a
known icon. -/
def siteLinksWellFormed (d : SiteDescriptor) : Bool :=
  d.nav.all (fun n => strHasLead n.link "/") &&
  d.sidebar.all (fun g => g.items.all (fun n => strHasLead n.link "/")) &&
  d.socialLinks.all (fun s => strHasLead s.link "https://" && knownIcon s.icon)

/-- Every hero action link of a resolved page descriptor is
site-root-relative. -/
def pageLinksWellFormed (p : PageDescriptor) : Bool :=
  p.hero.actions.all (fun a => strHasLead a.link "/")

/-- Concrete configuration with no title, used as a witness input. -/
def cfgNoTitle : RawSiteConfig :=
  { title := none, description := none, logo := none
    nav := [], sidebar := [], socialLinks := [] }

/-- Concrete configuration whose nav is the literal single Home entry. -/
def cfgNavHome : RawSiteConfig :=
  { title := some "T", description := none, logo := none
    nav := [ { text := "Home", link := "/" } ], sidebar := [], socialLinks := [] }

/-- Descriptor resolved from cfgNavHome. -/
def descNavHome : SiteDescriptor :=
  { title := "T", description := ""
    nav := [ { text := "Home", link := "/" } ], sidebar := [], socialLinks := [] }

/-- Concrete configuration holding one sidebar group with no items. -/
def cfgEmptyGroup : RawSiteConfig :=
  { title := some "Docs", description := none, logo := none
    nav := [], sidebar := [ { text := "Info", items := [] } ], socialLinks := [] }

/-- Concrete raw hero block with no tagline and no image. -/
def heroNoTagline : RawHero :=
  { name := some "N", text := some "T", tagline := none, image := none, actions := [] }

/-- Concrete front matter whose hero has no tagline and no image. -/
def fmNoTagline : RawFrontMatter :=
  { layout := none, hero := some heroNoTagline, features := [] }

/-- Page descriptor resolved from fmNoTagline. -/
def pageNoTagline : PageDescriptor :=
  { hero := { name := "N", text := "T", tagline := "", image := none, actions := [] }
    features := [] }

/-! ### Claims -/

/-- C1: for every raw site configuration in which the required field
title is absent, the Site Descriptor Resolver fails with ConfigError and
returns no resolved SiteDescriptor. -/
theorem resolveSite_missing_title (c : RawSiteConfig) (h : c.title = none) :
    resolveSite c = Except.error ConfigError.missingTitle := by
  simp [resolveSite, h]

/-- Witness for C1: the concrete title-free configuration is rejected. -/
theorem resolveSite_missing_title_witness :
    cfgNoTitle.title = none ∧
    resolveSite cfgNoTitle = Except.error ConfigError.missingTitle :=
  ⟨rfl, resolveSite_missing_title cfgNoTitle rfl⟩

/-- C2: when the Site Descriptor Resolver succeeds on a configuration
whose nav is the literal list with the single entry text Home, link
slash, the resolved descriptor's nav is exactly that one NavItem in that
position. -/
theorem resolveSite_nav_literal (c : RawSiteConfig) (d : SiteDescriptor)
    (hok : resolveSite c = Except.ok d)
    (hn : c.nav = [ { text := "Home", link := "/" } ]) :
    d.nav = [ { text := "Home", link := "/" } ] := by
  rcases resolveSite_ok_shape c d hok with ⟨h1, -, -⟩
  rw [h1, hn]

/-- Witness for C2: the concrete single-entry nav configuration resolves
with exactly that nav. -/
theorem resolveSite_nav_literal_witness :
    resolveSite cfgNavHome = Except.ok descNavHome ∧
    descNavHome.nav = [ { text := "Home", link := "/" } ] :=
  ⟨rfl, resolveSite_nav_literal cfgNavHome descNavHome rfl rfl⟩

/-- C3: the Page Descriptor Resolver is a pure function of its input, so
resolving identical front matter twice yields structurally equal
HeroConfig and FeatureItem outputs. -/
theorem resolvePage_deterministic (fm : RawFrontMatter) (d₁ d₂ : PageDescriptor)
    (h₁ : resolvePage fm = Except.ok d₁) (h₂ : resolvePage fm = Except.ok d₂) :
    d₁.hero = d₂.hero ∧ d₁.features = d₂.features := by
  rw [h₁] at h₂
  injection h₂ with h
  subst h
  exact ⟨rfl, rfl⟩

/-- Witness for C3: two resolutions of the repository's front matter
agree. -/
theorem resolvePage_deterministic_witness :
    astriaPage.hero = astriaPage.hero ∧ astriaPage.features = astriaPage.features :=
  resolvePage_deterministic astriaFrontMatter astriaPage astriaPage rfl rfl

/-- C4: when the optional tagline field is missing the resolved
HeroConfig.tagline is the defined default, the empty string, and a
missing image resolves to the defined default, no image. -/
theorem resolvePage_defaults (fm : RawFrontMatter) (h : RawHero) (d : PageDescriptor)
    (hh : fm.hero = some h) (ht : h.tagline = none) (hi : h.image = none)
    (hok : resolvePage fm = Except.ok d) :
    d.hero.tagline = "" ∧ d.hero.image = none := by
  have hhero := resolvePage_ok_hero fm h d hh hok
  rcases resolveHero_ok_fields h d.hero hhero with ⟨h1, h2⟩
  rw [h1, h2, ht, hi]
  exact ⟨rfl, rfl⟩

/-- Witness for C4: the concrete tagline-free, image-free front matter
resolves to the defaults. -/
theorem resolvePage_defaults_witness :
    pageNoTagline.hero.tagline = "" ∧ pageNoTagline.hero.image = none :=
  resolvePage_defaults fmNoTagline heroNoTagline pageNoTagline rfl rfl rfl rfl

/-- C5: a site configuration containing a sidebar group with an empty
items sequence is accepted, with the other validity conditions (title
present, links valid) holding, and the group resolves with the empty
ordered items sequence preserved. -/
theorem resolveSite_empty_group (c : RawSiteConfig) (t : String) (g : SidebarGroup)
    (ht : c.title = some t) (hv : firstInvalidLink c = none)
    (hg : g ∈ c.sidebar) (he : g.items = []) :
    resolveSite c = Except.ok { title := t, description := c.description.getD ""
                                nav := c.nav, sidebar := c.sidebar
                                socialLinks := c.socialLinks }
      ∧ g ∈ c.sidebar ∧ g.items = [] :=
  ⟨by simp [resolveSite, ht, hv], hg, he⟩

/-- Witness for C5: the concrete configuration with an empty Info group
is accepted and keeps the empty group. -/
theorem resolveSite_empty_group_witness :
    resolveSite cfgEmptyGroup = Except.ok { title := "Docs", description := ""
                                            nav := [], sidebar := [ SidebarGroup.mk "Info" [] ]
                                            socialLinks := [] }
      ∧ SidebarGroup.mk "Info" [] ∈ cfgEmptyGroup.sidebar
      ∧ (SidebarGroup.mk "Info" []).items = [] :=
  resolveSite_empty_group cfgEmptyGroup "Docs" (SidebarGroup.mk "Info" [])
    rfl rfl (by decide) rfl

/-- C6: for every raw front matter the Page Descriptor Resolver either
produces a page descriptor or fails with a ParseError, exactly one of the
two, with no partial result alongside an error. -/
theorem resolvePage_total_exclusive (fm : RawFrontMatter) :
    ((∃ d, resolvePage fm = Except.ok d) ∧ ¬∃ e, resolvePage fm = Except.error e) ∨
    ((∃ e, resolvePage fm = Except.error e) ∧ ¬∃ d, resolvePage fm = Except.ok d) := by
  cases h : resolvePage fm with
  | ok d => exact Or.inl ⟨⟨d, rfl⟩, by simp⟩
  | error e => exact Or.inr ⟨⟨e, rfl⟩, by simp⟩

/-- Witness for C6: the dichotomy at the repository's front matter. -/
theorem resolvePage_total_exclusive_witness :
    ((∃ d, resolvePage astriaFrontMatter = Except.ok d) ∧
      ¬∃ e, resolvePage astriaFrontMatter = Except.error e) ∨
    ((∃ e, resolvePage astriaFrontMatter = Except.error e) ∧
      ¬∃ d, resolvePage astriaFrontMatter = Except.ok d) :=
  resolvePage_total_exclusive astriaFrontMatter

/-- C7: in every successfully resolved HeroConfig every action's theme
lies in the enumeration brand, alt; and an input action with any other
theme string is rejected rather than resolved. -/
theorem resolvePage_theme_enum :
    (∀ fm d, resolvePage fm = Except.ok d →
        ∀ a ∈ d.hero.actions, a.theme = Theme.brand ∨ a.theme = Theme.alt) ∧
    (∀ s, s ≠ "brand" → s ≠ "alt" →
        resolveTheme s = Except.error (ParseError.invalidTheme s)) := by
  constructor
  · intro fm d _ a _
    rcases a with ⟨th, tx, lk⟩
    cases th
    · exact Or.inl rfl
    · exact Or.inr rfl
  · intro s h1 h2
    simp [resolveTheme, h1, h2]

/-- Witness for C7: the repository's first resolved action has an
enumerated theme, and the theme string dark is rejected. -/
theorem resolvePage_theme_enum_witness :
    ((HeroAction.mk Theme.brand "Just Deploy" "/Introduction").theme = Theme.brand ∨
     (HeroAction.mk Theme.brand "Just Deploy" "/Introduction").theme = Theme.alt) ∧
    resolveTheme "dark" = Except.error (ParseError.invalidTheme "dark") :=
  ⟨resolvePage_theme_enum.1 astriaFrontMatter astriaPage rfl
      (HeroAction.mk Theme.brand "Just Deploy" "/Introduction") (by decide),
   resolvePage_theme_enum.2 "dark" (by decide) (by decide)⟩

/-- C8: resolving the repository's site configuration yields title
Astria, description The Shared Sequencer Network, and a nav of exactly
two NavItems, Home then Just Rollup, in that order. -/
theorem repo_site_resolution :
    resolveSite astriaSiteConfig = Except.ok astriaDescriptor ∧
    astriaDescriptor.title = "Astria" ∧
    astriaDescriptor.description = "The Shared Sequencer Network" ∧
    astriaDescriptor.nav = [ NavItem.mk "Home" "/",
                             NavItem.mk "Just Rollup" "/Introduction" ] :=
  ⟨rfl, rfl, rfl, rfl⟩

/-- C9: resolving the repository's front matter yields exactly three
features titled Learn, Feature B, Feature C in display order, each with
non-empty details, and a hero with exactly two actions themed brand then
alt, both linking to /Introduction. -/
theorem repo_page_resolution :
    resolvePage astriaFrontMatter = Except.ok astriaPage ∧
    astriaPage.features.map FeatureItem.title = ["Learn", "Feature B", "Feature C"] ∧
    (∀ f ∈ astriaPage.features, f.details ≠ "") ∧
    astriaPage.hero.actions.map HeroAction.theme = [Theme.brand, Theme.alt] ∧
    astriaPage.hero.actions.map HeroAction.link = ["/Introduction", "/Introduction"] :=
  ⟨rfl, rfl, by decide, rfl, rfl⟩

/-- C10: in the repository's resolved descriptors every nav and sidebar
link begins with a slash, every social link is an absolute https URL with
a known icon (github), and every hero action link begins with a slash. -/
theorem repo_links_wellformed :
    resolveSite astriaSiteConfig = Except.ok astriaDescriptor ∧
    siteLinksWellFormed astriaDescriptor = true ∧
    resolvePage astriaFrontMatter = Except.ok astriaPage ∧
    pageLinksWellFormed astriaPage = true :=
  ⟨rfl, by decide, rfl, by decide⟩

end Astria
